import Mathlib

/-!
# Shallow embedding of the CKEditor 5 Angular component

This file embeds the logic of `src/esm2015/ckeditor.component.js`
(class `CKEditorComponent`) of the `ckeditor5-angular` integration,
and proves properties of its form-value bridge, mount controller,
event relay and teardown paths.

Modelling conventions:
* JavaScript strings are `String`; a string field that may be absent
  (`undefined`) is `Option String`; JS truthiness of a string is `· ≠ ""`.
* The live editor handle is a record of its content and read-only lock ids.
* Stateful methods are pure functions `CKState → ... → CKState × List Effect`,
  where `Effect` records the observable emissions (setData pushes, output
  events, callback invocations).
* The asynchronous creator runs on the single JS event loop; its internal
  ordering is captured as an explicit step trace.
-/

namespace CKAngular

/-- The constant lock id from the source
(`ANGULAR_INTEGRATION_READ_ONLY_LOCK_ID`). -/
def ANGULAR_INTEGRATION_READ_ONLY_LOCK_ID : String :=
  "Lock from Angular integration (@ckeditor/ckeditor5-angular)"

/-- Model of the external editor handle: content, read-only locks and
whether `destroy()` has run. -/
structure Editor where
  data : String := ""
  readOnlyLockIds : List String := []
  destroyed : Bool := false
deriving Repr, DecidableEq

/-- `editor.isReadOnly`: true when at least one lock is held. -/
def Editor.isReadOnly (e : Editor) : Bool :=
  !e.readOnlyLockIds.isEmpty

/-- `editor.getData()`. -/
def Editor.getData (e : Editor) : String := e.data

/-- `editor.setData(value)`. -/
def Editor.setData (e : Editor) (value : String) : Editor :=
  { e with data := value }

/-- `editor.enableReadOnlyMode(lockId)`: adds the lock (idempotent). -/
def Editor.enableReadOnlyMode (e : Editor) (lockId : String) : Editor :=
  { e with readOnlyLockIds :=
      if lockId ∈ e.readOnlyLockIds then e.readOnlyLockIds
      else lockId :: e.readOnlyLockIds }

/-- `editor.disableReadOnlyMode(lockId)`: removes the lock. -/
def Editor.disableReadOnlyMode (e : Editor) (lockId : String) : Editor :=
  { e with readOnlyLockIds := e.readOnlyLockIds.filter (· ≠ lockId) }

/-- `editor.destroy()`. -/
def Editor.destroy (e : Editor) : Editor :=
  { e with destroyed := true }

/-- The editor configuration object. `initialData` is `none` when the key
is absent (`undefined` in JS); other keys are opaque. -/
structure CKConfig where
  initialData : Option String := none
  otherKeys : List String := []
deriving Repr, DecidableEq

/-- JS truthiness of a string. -/
def strTruthy (s : String) : Bool := s ≠ ""

/-- JS truthiness of a possibly-absent string field. -/
def optStrTruthy : Option String → Bool
  | none => false
  | some s => s ≠ ""

/-- `CKEditorComponent.getConfig()`:

```js
if (this.data && this.config.initialData) {
    throw new Error('Editor data should be provided either using `config.initialData` or `data` properties.');
}
const config = Object.assign({}, this.config);
const initialData = this.config.initialData || this.data;
if (initialData) {
    config.initialData = initialData;
}
return config;
```
The thrown error is an `Except.error`; `Object.assign` is the record copy,
so an `initialData` key already present in `this.config` survives when the
`if (initialData)` guard is false. -/
def getConfig (data : String) (config : CKConfig) : Except String CKConfig :=
  if strTruthy data && optStrTruthy config.initialData then
    .error "Editor data should be provided either using `config.initialData` or `data` properties."
  else
    let initialData := if optStrTruthy config.initialData then config.initialData.getD "" else data
    if strTruthy initialData then
      .ok { config with initialData := some initialData }
    else
      .ok config

/-- Observable emissions of the component's methods and relay handlers.
`setData` is a push of content into the live editor; `cvaOnChange` and
`cvaOnTouched` are invocations of the callbacks registered by the form
system; the `emit*` constructors are the Angular output events, carrying
the native event token and the editor handle where the source does. -/
inductive Effect where
  | setData (value : String)
  | cvaOnChange (value : String)
  | cvaOnTouched
  | emitReady
  | emitChange (evt : Nat) (editor : Editor)
  | emitFocus (evt : Nat) (editor : Editor)
  | emitBlur (evt : Nat) (editor : Editor)
  | emitError
  | enableReadOnly (lockId : String)
  | disableReadOnly (lockId : String)
deriving Repr, DecidableEq

/-- The watchdog-related fields of the component.

* `watchdog`: the optional shared context watchdog, modelled by its
  internal `_watchdogs` registry (component id ↦ item watchdog, the item
  watchdog holding an optional live editor).
* `editorWatchdog`: the optional private `EditorWatchdog`
  (`some e?` when the field is set, holding an optional live editor). -/
structure CKState where
  id : Nat := 0
  config : CKConfig := {}
  data : String := ""
  tagName : String := "div"
  initiallyDisabled : Bool := false
  isEditorSettingData : Bool := false
  cvaOnChangeRegistered : Bool := false
  cvaOnTouchedRegistered : Bool := false
  watchdog : Option (List (Nat × Option Editor)) := none
  editorWatchdog : Option (Option Editor) := none
  /-- number of live one-shot `ready.pipe(first())` subscriptions created by
  buffered `writeValue` calls; each runs the same closure over `this`. -/
  readyOneShotSubs : Nat := 0
deriving Repr, DecidableEq

/-- `watchdog._watchdogs.get(id)` on the modelled registry. -/
def findWatchdog : List (Nat × Option Editor) → Nat → Option (Option Editor)
  | [], _ => none
  | (k, wd) :: rest, i => if k = i then some wd else findWatchdog rest i

/-- The `editorInstance` getter:

```js
let editorWatchdog = this.editorWatchdog;
if (this.watchdog) {
    editorWatchdog = this.watchdog._watchdogs.get(this.id);
}
if (editorWatchdog) {
    return editorWatchdog.editor;
}
return null;
```
-/
def CKState.editorInstance (s : CKState) : Option Editor :=
  match s.watchdog with
  | some registry =>
    match findWatchdog registry s.id with
    | some wd => wd
    | none => none
  | none =>
    match s.editorWatchdog with
    | some wd => wd
    | none => none

/-- Applies `f` to the live editor in place (wherever `editorInstance`
resolves it: the shared registry entry for `this.id`, or the private
watchdog). Used to model in-place mutation such as `setData` and the
read-only-mode calls. -/
def CKState.mapEditor (s : CKState) (f : Editor → Editor) : CKState :=
  match s.watchdog with
  | some registry =>
    { s with
        watchdog :=
          some (registry.map fun p => if p.1 = s.id then (p.1, p.2.map f) else p) }
  | none =>
    { s with editorWatchdog := s.editorWatchdog.map (fun wd => wd.map f) }

/-- A JS value passed to `writeValue`. -/
inductive JSValue where
  | null
  | undefined
  | str (s : String)
deriving Repr, DecidableEq

/-- `CKEditorComponent.writeValue(value)`:

```js
if (value === null || value === undefined) {
    value = '';
}
if (this.editorInstance) {
    this.isEditorSettingData = true;
    this.editorInstance.setData(value);
    this.isEditorSettingData = false;
}
else {
    this.data = value;
    this.ready
        .pipe(first())
        .subscribe((editor) => {
        if (!this.data) {
            this.data = '';
        }
        editor.setData(this.data);
    });
}
```
The buffered branch registers one more one-shot subscription. -/
def CKState.writeValue (s : CKState) (v : JSValue) : CKState × List Effect :=
  let value := match v with
    | .null => ""
    | .undefined => ""
    | .str t => t
  match s.editorInstance with
  | some _ =>
    let s1 := { s with isEditorSettingData := true }
    let s2 := s1.mapEditor (fun e => e.setData value)
    let s3 := { s2 with isEditorSettingData := false }
    (s3, [.setData value])
  | none =>
    ({ s with data := value, readyOneShotSubs := s.readyOneShotSubs + 1 }, [])

/-- The body of one buffered-write subscription, run when `ready` delivers
editor `e`: `if (!this.data) this.data = ''; editor.setData(this.data);`. -/
def readySubBody (s : CKState) (e : Editor) : CKState × Editor × List Effect :=
  let s1 := if s.data = "" then { s with data := "" } else s
  (s1, e.setData s1.data, [.setData s1.data])

/-- Runs `n` live one-shot subscriptions in order on a `ready` delivery. -/
def runReadySubs : Nat → CKState → Editor → CKState × Editor × List Effect
  | 0, s, e => (s, e, [])
  | n + 1, s, e =>
    let (s1, e1, effs1) := readySubBody s e
    let (s2, e2, effs2) := runReadySubs n s1 e1
    (s2, e2, effs1 ++ effs2)

/-- One emission of the `ready` EventEmitter carrying editor `e`: every
live `first()`-piped subscription fires once and then completes, so none
survives to a later emission. -/
def fireReady (s : CKState) (e : Editor) : CKState × Editor × List Effect :=
  let (s1, e1, effs) := runReadySubs s.readyOneShotSubs s e
  ({ s1 with readyOneShotSubs := 0 }, e1, .emitReady :: effs)

/-- The `disabled` getter:
`if (this.editorInstance) return this.editorInstance.isReadOnly; return this.initiallyDisabled;` -/
def CKState.disabled (s : CKState) : Bool :=
  match s.editorInstance with
  | some e => e.isReadOnly
  | none => s.initiallyDisabled

/-- `CKEditorComponent.setDisabledState(isDisabled)`:

```js
if (this.editorInstance) {
    if (isDisabled) {
        this.editorInstance.enableReadOnlyMode(ANGULAR_INTEGRATION_READ_ONLY_LOCK_ID);
    }
    else {
        this.editorInstance.disableReadOnlyMode(ANGULAR_INTEGRATION_READ_ONLY_LOCK_ID);
    }
}
this.initiallyDisabled = isDisabled;
```
-/
def CKState.setDisabledState (s : CKState) (isDisabled : Bool) : CKState × List Effect :=
  match s.editorInstance with
  | some _ =>
    if isDisabled then
      let s1 := s.mapEditor (fun e => e.enableReadOnlyMode ANGULAR_INTEGRATION_READ_ONLY_LOCK_ID)
      ({ s1 with initiallyDisabled := isDisabled },
       [.enableReadOnly ANGULAR_INTEGRATION_READ_ONLY_LOCK_ID])
    else
      let s1 := s.mapEditor (fun e => e.disableReadOnlyMode ANGULAR_INTEGRATION_READ_ONLY_LOCK_ID)
      ({ s1 with initiallyDisabled := isDisabled },
       [.disableReadOnly ANGULAR_INTEGRATION_READ_ONLY_LOCK_ID])
  | none =>
    ({ s with initiallyDisabled := isDisabled }, [])

/-- The `change:data` listener installed by `setUpEditorEvents`:

```js
modelDocument.on('change:data', (evt) => {
    this.ngZone.run(() => {
        if (this.cvaOnChange && !this.isEditorSettingData) {
            const data = editor.getData();
            this.cvaOnChange(data);
        }
        this.change.emit({ event: evt, editor });
    });
});
```
`evt` is the native event token. -/
def changeDataHandler (s : CKState) (editor : Editor) (evt : Nat) : List Effect :=
  (if s.cvaOnChangeRegistered && !s.isEditorSettingData then
    [.cvaOnChange editor.getData]
  else []) ++ [.emitChange evt editor]

/-- The `focus` listener installed by `setUpEditorEvents`. -/
def focusHandler (_s : CKState) (editor : Editor) (evt : Nat) : List Effect :=
  [.emitFocus evt editor]

/-- The `blur` listener installed by `setUpEditorEvents`:
invokes `cvaOnTouched` when registered, then emits `blur`. -/
def blurHandler (s : CKState) (editor : Editor) (evt : Nat) : List Effect :=
  (if s.cvaOnTouchedRegistered then [.cvaOnTouched] else []) ++
    [.emitBlur evt editor]

/-- One synchronous step of the `creator` callback of `attachToWatchdog`. -/
inductive CreatorStep where
  /-- `this.elementRef.nativeElement.appendChild(element)` -/
  | appendChild
  /-- `await this.editor.create(element, config)` resolves -/
  | createEditor
  /-- `editor.enableReadOnlyMode(ANGULAR_INTEGRATION_READ_ONLY_LOCK_ID)` -/
  | enableReadOnly
  /-- `this.ngZone.run(() => this.ready.emit(editor))` -/
  | emitReady
  /-- `this.setUpEditorEvents(editor)` -/
  | wireRelay
deriving Repr, DecidableEq

/-- The ordered trace of the `creator` callback:

```js
this.elementRef.nativeElement.appendChild(element);
const editor = yield this.editor.create(element, config);
if (this.initiallyDisabled) {
    editor.enableReadOnlyMode(ANGULAR_INTEGRATION_READ_ONLY_LOCK_ID);
}
this.ngZone.run(() => {
    this.ready.emit(editor);
});
this.setUpEditorEvents(editor);
```
(`ngZone.run` invokes its callback synchronously.) -/
def creatorTrace (initiallyDisabled : Bool) : List CreatorStep :=
  [.appendChild, .createEditor] ++
    (if initiallyDisabled then [.enableReadOnly] else []) ++
    [.emitReady, .wireRelay]

/-- The editor value produced by the `creator` callback before the `ready`
emission: the external `create` resolves with the config's initial data,
then read-only mode is enabled when a disabled state was requested
earlier. -/
def creatorEditor (initiallyDisabled : Bool) (config : CKConfig) : Editor :=
  let e : Editor := { data := config.initialData.getD "" }
  if initiallyDisabled then
    e.enableReadOnlyMode ANGULAR_INTEGRATION_READ_ONLY_LOCK_ID
  else
    e

/-- Full effect of the `creator` on a component state: builds the editor,
then the `ready` emission delivers it to all live one-shot subscriptions
(the relay is wired only afterwards, so those `setData` calls fire no
`change:data` relay). -/
def runCreator (s : CKState) : CKState × Editor × List Effect :=
  fireReady s (creatorEditor s.initiallyDisabled (s.config))

/-- One synchronous step of `attachToWatchdog` itself. -/
inductive AttachStep where
  /-- `document.createElement(this.tagName)` -/
  | createElement
  /-- `this.watchdog.add({...})` on the shared context watchdog -/
  | watchdogAdd
  /-- `this.watchdog.on('itemError', ...)` -/
  | subscribeItemError
  /-- `new EditorWatchdog(this.editor)` plus `setCreator`/`setDestructor` -/
  | constructPrivateWatchdog
  /-- `editorWatchdog.on('error', emitError)` -/
  | subscribePrivateError
  /-- `this.editorWatchdog.create(element, config)` -/
  | privateCreate
deriving Repr, DecidableEq

/-- The synchronous trace of `attachToWatchdog` up to (and excluding) the
asynchronous completion of editor creation. The element is created first,
then `getConfig` may throw (aborting before any watchdog interaction);
otherwise the shared or the private wiring runs. Returns the executed
steps and whether `getConfig` threw. -/
def attachToWatchdog (s : CKState) : List AttachStep × Bool :=
  match getConfig s.data s.config with
  | .error _ => ([.createElement], true)
  | .ok _ =>
    if s.watchdog.isSome then
      ([.createElement, .watchdogAdd, .subscribeItemError], false)
    else
      ([.createElement, .constructPrivateWatchdog, .subscribePrivateError,
        .privateCreate], false)

/-- The shared watchdog's `itemError` listener:
`(_, { itemId }) => { if (itemId === this.id) emitError(); }` where
`emitError` runs `this.error.emit()` in the Angular zone. -/
def itemErrorHandler (s : CKState) (itemId : Nat) : List Effect :=
  if itemId = s.id then [.emitError] else []

/-- The private watchdog's `error` listener: `emitError` itself. -/
def privateErrorHandler (_s : CKState) : List Effect :=
  [.emitError]

/-- A teardown action of `ngOnDestroy`. -/
inductive DestroyAction where
  /-- `await this.watchdog.remove(this.id)` on the shared watchdog -/
  | watchdogRemove (id : Nat)
  /-- `await this.editorWatchdog.destroy()` on the private watchdog -/
  | privateDestroy
deriving Repr, DecidableEq

/-- `CKEditorComponent.ngOnDestroy()`:

```js
if (this.watchdog) {
    yield this.watchdog.remove(this.id);
}
else if (this.editorWatchdog && this.editorWatchdog.editor) {
    yield this.editorWatchdog.destroy();
    this.editorWatchdog = undefined;
}
```
-/
def CKState.ngOnDestroy (s : CKState) : CKState × List DestroyAction :=
  match s.watchdog with
  | some _ => (s, [.watchdogRemove s.id])
  | none =>
    match s.editorWatchdog with
    | some (some _) => ({ s with editorWatchdog := none }, [.privateDestroy])
    | _ => (s, [])

/-- The host element's DOM state: the list of child element ids appended
to `elementRef.nativeElement`. -/
structure HostDOM where
  children : List Nat := []
deriving Repr, DecidableEq

/-- The `appendChild(element)` performed by the creator on mount. -/
def HostDOM.appendChild (dom : HostDOM) (elementId : Nat) : HostDOM :=
  { dom with children := dom.children ++ [elementId] }

/-- The `destructor` callback of `attachToWatchdog`:

```js
yield editor.destroy();
// this.elementRef.nativeElement.removeChild( this.editorElement! );
```
It destroys the editor handle; the `removeChild` line is commented out, so
the host DOM is untouched. -/
def destructor (dom : HostDOM) (editor : Editor) : HostDOM × Editor :=
  (dom, editor.destroy)

/-! ## Helper lemmas -/

/-- `_watchdogs.get` after an in-place update of the entry for `i`. -/
theorem findWatchdog_map (registry : List (Nat × Option Editor)) (i : Nat)
    (f : Editor → Editor) :
    findWatchdog (registry.map fun p => if p.1 = i then (p.1, p.2.map f) else p) i
      = (findWatchdog registry i).map (fun wd => wd.map f) := by
  induction registry with
  | nil => rfl
  | cons hd tl ih =>
    obtain ⟨k, wd⟩ := hd
    by_cases h : k = i
    · subst h
      have hhead : (if (k, wd).1 = k then ((k, wd).1, Option.map f (k, wd).2)
          else (k, wd)) = (k, Option.map f wd) := by simp
      rw [List.map_cons, hhead]
      simp [findWatchdog]
    · have hhead : (if (k, wd).1 = i then ((k, wd).1, Option.map f (k, wd).2)
          else (k, wd)) = (k, wd) := by simp [h]
      rw [List.map_cons, hhead]
      simp [findWatchdog, h, ih]

/-- `editorInstance` after an in-place editor update. -/
theorem editorInstance_mapEditor (s : CKState) (f : Editor → Editor) :
    (s.mapEditor f).editorInstance = s.editorInstance.map f := by
  unfold CKState.mapEditor CKState.editorInstance
  cases hw : s.watchdog with
  | some registry =>
    simp only [findWatchdog_map]
    cases findWatchdog registry s.id <;> simp
  | none =>
    cases s.editorWatchdog <;> simp

/-- `true` exactly on content pushes (`setData` effects). -/
def isPush : Effect → Bool
  | .setData _ => true
  | _ => false

/-- The vestigial `if (!this.data) this.data = ''` in the buffered-write
subscription never changes the state: `data` is already a string. -/
theorem readySubBody_eq (s : CKState) (e : Editor) :
    readySubBody s e = (s, e.setData s.data, [.setData s.data]) := by
  unfold readySubBody
  by_cases h : s.data = ""
  · simp only [h, if_pos rfl]
    cases s
    simp_all
  · simp [h]

/-- Closed form of a `ready` delivery to `n` pending one-shot
subscriptions: the state is unchanged, the editor ends at the buffered
value (when `n ≥ 1`), and there is one push per subscription. -/
theorem runReadySubs_eq (n : Nat) (s : CKState) (e : Editor) :
    runReadySubs n s e
      = (s, if n = 0 then e else e.setData s.data,
         List.replicate n (.setData s.data)) := by
  induction n generalizing e with
  | zero => rfl
  | succ m ih =>
    simp only [runReadySubs, readySubBody_eq, ih]
    cases m <;> simp [Editor.setData, List.replicate]

/-- Counting with `countP` over a replicated list. -/
theorem countP_replicate (p : Effect → Bool) (n : Nat) (a : Effect) :
    List.countP p (List.replicate n a) = if p a then n else 0 := by
  induction n with
  | zero => simp
  | succ m ih =>
    by_cases h : p a = true <;>
      simp [List.replicate, List.countP_cons, ih, h]

/-! ## Theorems for the claims -/

/-- **C9.** The teardown (`destructor`) callback destroys the editor handle
and performs no other state change: the container element appended to the
host on mount is still a child of the host after teardown (the
`removeChild` line is commented out in the source). -/
theorem destructor_destroys_only (dom : HostDOM) (elementId : Nat) (editor : Editor) :
    (destructor (dom.appendChild elementId) editor).2 = editor.destroy ∧
    (destructor (dom.appendChild elementId) editor).1 = dom.appendChild elementId ∧
    elementId ∈ (destructor (dom.appendChild elementId) editor).1.children := by
  refine ⟨rfl, rfl, ?_⟩
  simp [destructor, HostDOM.appendChild]

/-- **C8.** `ngOnDestroy`: with a shared watchdog, `remove(id)` is called
and no private watchdog is destroyed; without one, the private watchdog is
destroyed and cleared exactly when it holds a live editor, and skipped
otherwise. -/
theorem ngOnDestroy_spec (s : CKState) :
    (s.watchdog.isSome = true →
      s.ngOnDestroy = (s, [.watchdogRemove s.id])) ∧
    (∀ e : Editor, s.watchdog = none → s.editorWatchdog = some (some e) →
      s.ngOnDestroy = ({ s with editorWatchdog := none }, [.privateDestroy])) ∧
    (s.watchdog = none → s.editorWatchdog = none →
      s.ngOnDestroy = (s, [])) ∧
    (s.watchdog = none → s.editorWatchdog = some none →
      s.ngOnDestroy = (s, [])) := by
  refine ⟨?_, ?_, ?_, ?_⟩
  · intro h
    cases hw : s.watchdog with
    | none => rw [hw] at h; simp at h
    | some reg => simp [CKState.ngOnDestroy, hw]
  · intro e hw he
    simp [CKState.ngOnDestroy, hw, he]
  · intro hw he
    simp [CKState.ngOnDestroy, hw, he]
  · intro hw he
    simp [CKState.ngOnDestroy, hw, he]

/-- Witness for C8 at concrete states covering all four branches. -/
theorem ngOnDestroy_spec_witness :
    ({ watchdog := some [(0, none)] } : CKState).ngOnDestroy
      = ({ watchdog := some [(0, none)] }, [.watchdogRemove 0]) ∧
    ({ editorWatchdog := some (some {}) } : CKState).ngOnDestroy
      = ({ editorWatchdog := none }, [.privateDestroy]) ∧
    ({} : CKState).ngOnDestroy = ({}, []) ∧
    ({ editorWatchdog := some none } : CKState).ngOnDestroy
      = ({ editorWatchdog := some none }, []) :=
  ⟨(ngOnDestroy_spec _).1 rfl,
   (ngOnDestroy_spec _).2.1 {} rfl rfl,
   (ngOnDestroy_spec _).2.2.1 rfl rfl,
   (ngOnDestroy_spec _).2.2.2 rfl rfl⟩

/-- **C7.** Shared watchdog: the `itemError` listener emits `error` (with
no payload) iff the notification's `itemId` equals this instance's id.
Private watchdog: its `error` listener emits exactly one `error`. -/
theorem error_wiring_spec (s : CKState) (itemId : Nat) :
    (itemId = s.id → itemErrorHandler s itemId = [.emitError]) ∧
    (itemId ≠ s.id → itemErrorHandler s itemId = []) ∧
    privateErrorHandler s = [.emitError] := by
  refine ⟨?_, ?_, rfl⟩
  · intro h; simp [itemErrorHandler, h]
  · intro h; simp [itemErrorHandler, h]

/-- Witness for C7: matching and non-matching ids on a concrete state. -/
theorem error_wiring_spec_witness :
    itemErrorHandler { id := 5 } 5 = [.emitError] ∧
    itemErrorHandler { id := 5 } 7 = [] ∧
    privateErrorHandler { id := 5 } = [.emitError] :=
  ⟨(error_wiring_spec { id := 5 } 5).1 rfl,
   (error_wiring_spec { id := 5 } 7).2.1 (by decide),
   (error_wiring_spec { id := 5 } 7).2.2⟩

/-- **C4.** The `change:data` listener: with the re-entrancy guard set
(as during a programmatic `writeValue` on a live editor) the registered
change callback is not invoked; with the guard clear and a callback
registered it is invoked with `editor.getData()`; in both cases a
structured `change` event with the native event and the editor handle is
emitted. -/
theorem changeDataHandler_spec (s : CKState) (editor : Editor) (evt : Nat) :
    (s.isEditorSettingData = true →
      changeDataHandler s editor evt = [.emitChange evt editor]) ∧
    (s.isEditorSettingData = false → s.cvaOnChangeRegistered = true →
      changeDataHandler s editor evt
        = [.cvaOnChange editor.getData, .emitChange evt editor]) ∧
    Effect.emitChange evt editor ∈ changeDataHandler s editor evt := by
  refine ⟨?_, ?_, ?_⟩
  · intro h; simp [changeDataHandler, h]
  · intro h hc; simp [changeDataHandler, h, hc]
  · unfold changeDataHandler
    cases s.cvaOnChangeRegistered && !s.isEditorSettingData <;> simp

/-- Witness for C4: guard set suppresses the callback; guard clear with a
registered callback invokes it with the current content. -/
theorem changeDataHandler_spec_witness :
    changeDataHandler { isEditorSettingData := true, cvaOnChangeRegistered := true }
        { data := "x" } 3
      = [.emitChange 3 { data := "x" }] ∧
    changeDataHandler { cvaOnChangeRegistered := true } { data := "x" } 3
      = [.cvaOnChange "x", .emitChange 3 { data := "x" }] :=
  ⟨(changeDataHandler_spec _ _ 3).1 rfl,
   (changeDataHandler_spec { cvaOnChangeRegistered := true } _ 3).2.1 rfl rfl⟩

/-- `editorInstance` ignores the re-entrancy guard field. -/
theorem editorInstance_setGuard (s : CKState) (b : Bool) :
    ({ s with isEditorSettingData := b } : CKState).editorInstance
      = s.editorInstance := rfl

/-- Live-editor branch of `writeValue`: content after the push. -/
theorem writeValue_live (s : CKState) (e : Editor) (w : String)
    (h : s.editorInstance = some e) :
    (s.writeValue (.str w)).1.editorInstance = some (e.setData w) ∧
    (s.writeValue (.str w)).2 = [.setData w] ∧
    (s.writeValue (.str w)).1.isEditorSettingData = false := by
  unfold CKState.writeValue
  rw [h]
  refine ⟨?_, rfl, ?_⟩
  · show ({ ({ s with isEditorSettingData := true }.mapEditor
        fun e => e.setData w) with isEditorSettingData := false }).editorInstance = _
    rw [editorInstance_setGuard, editorInstance_mapEditor, editorInstance_setGuard, h]
    rfl
  · rfl

/-- **C5.** `writeValue` normalizes `null` and `undefined` to `""`: the
whole call behaves exactly as `writeValue("")`, and on a live editor the
content afterwards is the written string, `""` for `null`/`undefined`. -/
theorem writeValue_normalizes (s : CKState) (e : Editor) (v : String) :
    s.writeValue .null = s.writeValue (.str "") ∧
    s.writeValue .undefined = s.writeValue (.str "") ∧
    (s.editorInstance = some e →
      (s.writeValue (.str v)).1.editorInstance = some (e.setData v) ∧
      (s.writeValue .null).1.editorInstance = some (e.setData "") ∧
      (s.writeValue .undefined).1.editorInstance = some (e.setData "")) := by
  refine ⟨rfl, rfl, fun h => ⟨(writeValue_live s e v h).1, ?_, ?_⟩⟩
  · show (s.writeValue (.str "")).1.editorInstance = _
    exact (writeValue_live s e "" h).1
  · show (s.writeValue (.str "")).1.editorInstance = _
    exact (writeValue_live s e "" h).1

/-- Witness for C5 on a concrete live-editor state (private watchdog
holding an editor with content `"x"`). -/
theorem writeValue_normalizes_witness :
    (({ editorWatchdog := some (some { data := "x" }) } : CKState).writeValue
        (.str "y")).1.editorInstance = some { data := "y" } ∧
    (({ editorWatchdog := some (some { data := "x" }) } : CKState).writeValue
        .null).1.editorInstance = some { data := "" } ∧
    (({ editorWatchdog := some (some { data := "x" }) } : CKState).writeValue
        .undefined).1.editorInstance = some { data := "" } :=
  (writeValue_normalizes { editorWatchdog := some (some { data := "x" }) }
    { data := "x" } "y").2.2 rfl

/-- **C6.** `setDisabledState(true)` before the editor exists persists the
request (and touches no editor); the creator then enables read-only mode
on the new handle tagged with the Angular lock id; with no disabled
request pending, the creator leaves the handle without locks. -/
theorem setDisabled_before_creation (s : CKState) (h : s.editorInstance = none) :
    (s.setDisabledState true).1.initiallyDisabled = true ∧
    (s.setDisabledState true).2 = [] ∧
    (∀ cfg : CKConfig,
      (creatorEditor (s.setDisabledState true).1.initiallyDisabled cfg).readOnlyLockIds
          = [ANGULAR_INTEGRATION_READ_ONLY_LOCK_ID] ∧
      (creatorEditor (s.setDisabledState true).1.initiallyDisabled cfg).isReadOnly
          = true ∧
      CreatorStep.enableReadOnly
        ∈ creatorTrace (s.setDisabledState true).1.initiallyDisabled) ∧
    (∀ cfg : CKConfig,
      (creatorEditor false cfg).readOnlyLockIds = [] ∧
      (creatorEditor false cfg).isReadOnly = false ∧
      CreatorStep.enableReadOnly ∉ creatorTrace false) := by
  have hset : s.setDisabledState true = ({ s with initiallyDisabled := true }, []) := by
    unfold CKState.setDisabledState
    rw [h]
  refine ⟨by rw [hset], by rw [hset], ?_, ?_⟩
  · intro cfg
    rw [hset]
    refine ⟨?_, ?_, ?_⟩
    · simp [creatorEditor, Editor.enableReadOnlyMode]
    · simp [creatorEditor, Editor.enableReadOnlyMode, Editor.isReadOnly]
    · simp [creatorTrace]
  · intro cfg
    refine ⟨rfl, rfl, by simp [creatorTrace]⟩

/-- Witness for C6 on the freshly constructed component state. -/
theorem setDisabled_before_creation_witness :
    (({} : CKState).setDisabledState true).1.initiallyDisabled = true ∧
    (creatorEditor (({} : CKState).setDisabledState true).1.initiallyDisabled {}).isReadOnly
      = true ∧
    (creatorEditor false {}).isReadOnly = false := by
  have h := setDisabled_before_creation {} rfl
  exact ⟨h.1, (h.2.2.1 {}).2.1, (h.2.2.2 {}).2.1⟩

/-- **C10.** The `editorInstance` getter returns `null` (never throws) in
every pre-editor state — before mount, with a shared watchdog whose
registry lacks this id or whose item has no editor yet, or with a private
watchdog without an editor — and in all those states `writeValue` takes
the buffering branch, `disabled` falls back to the persisted flag, and
`setDisabledState` only persists. -/
theorem editorInstance_null_fallbacks (s : CKState)
    (reg : List (Nat × Option Editor)) (v : JSValue) (b : Bool) :
    (s.watchdog = none → s.editorWatchdog = none → s.editorInstance = none) ∧
    (s.watchdog = some reg → findWatchdog reg s.id = none →
      s.editorInstance = none) ∧
    (s.watchdog = some reg → findWatchdog reg s.id = some none →
      s.editorInstance = none) ∧
    (s.watchdog = none → s.editorWatchdog = some none →
      s.editorInstance = none) ∧
    (s.editorInstance = none →
      (s.writeValue v).2 = [] ∧
      (s.writeValue v).1.readyOneShotSubs = s.readyOneShotSubs + 1 ∧
      s.disabled = s.initiallyDisabled ∧
      (s.setDisabledState b).2 = [] ∧
      (s.setDisabledState b).1.initiallyDisabled = b) := by
  refine ⟨?_, ?_, ?_, ?_, ?_⟩
  · intro hw he
    simp [CKState.editorInstance, hw, he]
  · intro hw hf
    simp [CKState.editorInstance, hw, hf]
  · intro hw hf
    simp [CKState.editorInstance, hw, hf]
  · intro hw he
    simp [CKState.editorInstance, hw, he]
  · intro h
    have hwv : s.writeValue v
        = ({ s with
              data := match v with
                | .null => "" | .undefined => "" | .str t => t,
              readyOneShotSubs := s.readyOneShotSubs + 1 }, []) := by
      unfold CKState.writeValue
      rw [h]
    have hdis : s.disabled = s.initiallyDisabled := by
      unfold CKState.disabled
      rw [h]
    have hsd : s.setDisabledState b = ({ s with initiallyDisabled := b }, []) := by
      unfold CKState.setDisabledState
      rw [h]
    exact ⟨by rw [hwv], by rw [hwv], hdis, by rw [hsd], by rw [hsd]⟩

/-- Witness for C10: the pre-mount state, a shared-watchdog state whose
registry lacks the id, one whose item has no editor, and a private
watchdog without an editor; plus the fallback behaviors at the pre-mount
state. -/
theorem editorInstance_null_fallbacks_witness :
    ({} : CKState).editorInstance = none ∧
    ({ id := 0, watchdog := some [(1, some {})] } : CKState).editorInstance = none ∧
    ({ id := 2, watchdog := some [(2, none)] } : CKState).editorInstance = none ∧
    ({ editorWatchdog := some none } : CKState).editorInstance = none ∧
    (({} : CKState).writeValue .null).2 = [] ∧
    (({} : CKState).writeValue .null).1.readyOneShotSubs = 1 ∧
    ({} : CKState).disabled = false ∧
    (({} : CKState).setDisabledState true).1.initiallyDisabled = true := by
  have h0 := editorInstance_null_fallbacks {} [] .null true
  have h1 := editorInstance_null_fallbacks
    { id := 0, watchdog := some [(1, some {})] } [(1, some {})] .null true
  have h2 := editorInstance_null_fallbacks
    { id := 2, watchdog := some [(2, none)] } [(2, none)] .null true
  have h3 := editorInstance_null_fallbacks
    { editorWatchdog := some none } [] .null true
  have hnone : ({} : CKState).editorInstance = none := h0.1 rfl rfl
  have hfall := h0.2.2.2.2 hnone
  exact ⟨hnone, h1.2.1 rfl (by decide), h2.2.2.1 rfl (by decide),
    h3.2.2.2.1 rfl rfl, hfall.1, hfall.2.1, hfall.2.2.1, hfall.2.2.2.2⟩

/-- **C3, counterexample.** With `data = ""` and an explicitly empty
`config.initialData`, `getConfig` returns without throwing, but the
`initialData` key is *not* absent: `Object.assign` copied it and the
`if (initialData)` guard never overwrote or removed it. -/
theorem getConfig_keeps_empty_key :
    getConfig "" { initialData := some "" } = .ok { initialData := some "" } ∧
    ({ initialData := some "" } : CKConfig).initialData ≠ none := by
  refine ⟨rfl, by simp⟩

/-- **C3, amended.** `getConfig` throws exactly when both `data` and
`config.initialData` are non-empty, in which case `attachToWatchdog`
aborts before any `watchdog.add` or private `create`; when at most one is
non-empty the merge succeeds with `initialData` from the non-empty source;
when both are empty the result is the plain copy of `config` (so the
`initialData` key is absent iff `config` had it absent — an explicit empty
value is retained). -/
theorem getConfig_attach_spec (s : CKState) (cd d : String) :
    (s.data ≠ "" → s.config.initialData = some cd → cd ≠ "" →
      (∃ msg, getConfig s.data s.config = .error msg) ∧
      (attachToWatchdog s).2 = true ∧
      (attachToWatchdog s).1 = [.createElement] ∧
      AttachStep.watchdogAdd ∉ (attachToWatchdog s).1 ∧
      AttachStep.privateCreate ∉ (attachToWatchdog s).1) ∧
    (s.data = "" → s.config.initialData = some cd → cd ≠ "" →
      getConfig s.data s.config = .ok { s.config with initialData := some cd }) ∧
    (s.data = d → d ≠ "" → optStrTruthy s.config.initialData = false →
      getConfig s.data s.config = .ok { s.config with initialData := some d }) ∧
    (s.data = "" → optStrTruthy s.config.initialData = false →
      getConfig s.data s.config = .ok s.config) := by
  refine ⟨?_, ?_, ?_, ?_⟩
  · intro hd hc hcd
    have herr : getConfig s.data s.config
        = .error "Editor data should be provided either using `config.initialData` or `data` properties." := by
      unfold getConfig
      simp [strTruthy, optStrTruthy, hd, hc, hcd]
    refine ⟨⟨_, herr⟩, ?_, ?_, ?_, ?_⟩ <;>
      simp [attachToWatchdog, herr]
  · intro hd hc hcd
    unfold getConfig
    simp [strTruthy, optStrTruthy, hd, hc, hcd]
  · intro hd hdne hc
    unfold getConfig
    subst hd
    simp [strTruthy, hc, hdne]
  · intro hd hc
    unfold getConfig
    simp [strTruthy, optStrTruthy, hd] at *
    cases hco : s.config.initialData with
    | none => simp [hco]
    | some c =>
      rw [hco] at hc
      simp [optStrTruthy] at hc
      simp [hco, hc]

/-- Witness for C3 (amended): the throwing case at `data = "x"`,
`config.initialData = "y"`; the data-only, config-only and both-empty
cases at concrete configurations. -/
theorem getConfig_attach_spec_witness :
    (attachToWatchdog { data := "x", config := { initialData := some "y" } }).2
        = true ∧
    AttachStep.watchdogAdd
        ∉ (attachToWatchdog { data := "x", config := { initialData := some "y" } }).1 ∧
    getConfig "" { initialData := some "y" } = .ok { initialData := some "y" } ∧
    getConfig "x" {} = .ok { initialData := some "x" } ∧
    getConfig "" {} = .ok {} := by
  have h1 := getConfig_attach_spec
    { data := "x", config := { initialData := some "y" } } "y" "x"
  have h2 := getConfig_attach_spec { data := "", config := { initialData := some "y" } } "y" "x"
  have h3 := getConfig_attach_spec { data := "x", config := {} } "y" "x"
  have h4 := getConfig_attach_spec { data := "", config := {} } "y" "x"
  exact ⟨(h1.1 (by decide) rfl (by decide)).2.1,
    (h1.1 (by decide) rfl (by decide)).2.2.2.1,
    h2.2.1 rfl rfl (by decide),
    h3.2.2.1 rfl (by decide) rfl,
    h4.2.2.2 rfl rfl⟩

/-- A sequence of `writeValue(string)` calls, as issued by the form
system before the editor is ready. -/
def writeValues (s : CKState) (vs : List String) : CKState :=
  vs.foldl (fun acc v => (acc.writeValue (.str v)).1) s

/-- `editorInstance` ignores the content buffer and subscription count. -/
theorem editorInstance_setBuffer (s : CKState) (v : String) (n : Nat) :
    ({ s with data := v, readyOneShotSubs := n } : CKState).editorInstance
      = s.editorInstance := rfl

/-- Pre-ready `writeValue` calls only buffer: the editor stays absent,
each call adds one one-shot subscription, and the buffer holds the last
written value. -/
theorem writeValues_buffer (vs : List String) (s : CKState)
    (h : s.editorInstance = none) :
    (writeValues s vs).editorInstance = none ∧
    (writeValues s vs).readyOneShotSubs = s.readyOneShotSubs + vs.length ∧
    (writeValues s vs).data = vs.getLastD s.data := by
  induction vs generalizing s with
  | nil => exact ⟨h, rfl, rfl⟩
  | cons v tl ih =>
    have hstep : s.writeValue (.str v)
        = ({ s with data := v, readyOneShotSubs := s.readyOneShotSubs + 1 }, []) := by
      unfold CKState.writeValue
      rw [h]
    have hrec := ih { s with data := v, readyOneShotSubs := s.readyOneShotSubs + 1 }
      (by rw [editorInstance_setBuffer]; exact h)
    refine ⟨?_, ?_, ?_⟩
    · show (writeValues (s.writeValue (.str v)).1 tl).editorInstance = none
      rw [hstep]
      exact hrec.1
    · show (writeValues (s.writeValue (.str v)).1 tl).readyOneShotSubs = _
      rw [hstep]
      rw [hrec.2.1]
      simp [List.length_cons]
      omega
    · show (writeValues (s.writeValue (.str v)).1 tl).data = _
      rw [hstep]
      rw [hrec.2.2]
      exact (List.getLastD_cons _ _ _).symm

/-- **C1, counterexample.** Two pre-ready `writeValue` calls (`"a"` then
`"b"`) followed by a single `ready` delivery produce **two** pushes into
the editor (each call registered its own one-shot subscription), not
exactly one — though both push the last buffered value `"b"`. -/
theorem buffered_push_count_two :
    (fireReady (writeValues {} ["a", "b"]) {}).2.2.countP isPush = 2 ∧
    ¬ (fireReady (writeValues {} ["a", "b"]) {}).2.2.countP isPush = 1 ∧
    (fireReady (writeValues {} ["a", "b"]) {}).2.1.data = "b" := by
  refine ⟨by decide, by decide, by decide⟩

/-- **C1, amended.** After any non-empty sequence of pre-ready
`writeValue` calls and one `ready` delivery, the editor's content equals
the last buffered value and nothing is pushed at later `ready` deliveries;
however the first delivery triggers one push **per buffered call** (all of
the same last value), not exactly one push in total. -/
theorem buffered_writes_first_ready (s : CKState) (vs : List String)
    (e e2 : Editor) (h : s.editorInstance = none)
    (h0 : s.readyOneShotSubs = 0) (hne : vs ≠ []) :
    (fireReady (writeValues s vs) e).2.1.data = vs.getLastD s.data ∧
    (fireReady (writeValues s vs) e).2.2.countP isPush = vs.length ∧
    (fireReady ((fireReady (writeValues s vs) e).1) e2).2.2.countP isPush = 0 := by
  obtain ⟨hinst, hsubs, hdata⟩ := writeValues_buffer vs s h
  have hlen : vs.length ≠ 0 := by
    intro hcontra
    exact hne (List.length_eq_zero.mp hcontra)
  have hsubs' : (writeValues s vs).readyOneShotSubs = vs.length := by
    rw [hsubs, h0, Nat.zero_add]
  refine ⟨?_, ?_, ?_⟩
  · unfold fireReady
    rw [runReadySubs_eq, hsubs']
    simp only [if_neg hlen]
    rw [← hdata]
    rfl
  · unfold fireReady
    rw [runReadySubs_eq, hsubs']
    simp only [List.countP_cons]
    rw [countP_replicate]
    simp [isPush]
  · unfold fireReady
    rw [runReadySubs_eq, hsubs']
    simp [runReadySubs_eq, isPush]

/-- Witness for C1 (amended) with one buffered write of `"hi"`. -/
theorem buffered_writes_first_ready_witness :
    (fireReady (writeValues {} ["hi"]) {}).2.1.data = "hi" ∧
    (fireReady (writeValues {} ["hi"]) {}).2.2.countP isPush = 1 ∧
    (fireReady ((fireReady (writeValues {} ["hi"]) {}).1) {}).2.2.countP isPush
      = 0 := by
  have h := buffered_writes_first_ready {} ["hi"] {} {} rfl rfl (by decide)
  simpa using h

/-- **C2, counterexample.** In the creation sequence (here with no pending
disabled state), `ready` is emitted strictly *before* the event relay is
wired: the `emitReady` step precedes the `wireRelay` step, so a subscriber
receiving `ready` observes an editor whose relay is not yet subscribed. -/
theorem ready_emitted_before_relay :
    creatorTrace false
      = [.appendChild, .createEditor, .emitReady, .wireRelay] ∧
    (creatorTrace false).indexOf CreatorStep.emitReady
      < (creatorTrace false).indexOf CreatorStep.wireRelay := by
  refine ⟨by decide, by decide⟩

/-- **C2, amended.** In every creation sequence the `ready` notification
is emitted immediately *before* the event relay is wired: the trace ends
with `emitReady` followed by `wireRelay`, and neither step occurs
earlier. -/
theorem creator_ready_then_relay (b : Bool) :
    ∃ pre : List CreatorStep,
      creatorTrace b = pre ++ [.emitReady, .wireRelay] ∧
      CreatorStep.emitReady ∉ pre ∧ CreatorStep.wireRelay ∉ pre := by
  cases b
  · exact ⟨[.appendChild, .createEditor], by decide, by decide, by decide⟩
  · exact ⟨[.appendChild, .createEditor, .enableReadOnly],
      by decide, by decide, by decide⟩

end CKAngular
